import Mathlib

/-!
Verification of the clean-energy content API (`src/main.py`, `src/schemas.py`)
against its natural-language specification.

The embedding models JSON-like document values, the four Pydantic schemas,
and each HTTP handler of `main.py` as a pure Lean function.  The document
store adapter (`database.py`) is not part of the sources; where a claim
depends on it, its contract is modelled from the specification (§4.1) and
marked as such in the doc comment.  Handlers are parametrised by an
`Option Store` standing for the process-global nullable handle `db`.
-/

/-- A JSON-like field value as stored in a document: a string, a boolean,
a list of strings, or null. -/
inductive Value where
  | vStr : String → Value
  | vBool : Bool → Value
  | vList : List String → Value
  | vNone : Value
deriving Repr, DecidableEq, BEq

/-- A document: a finite map from field names to values, as an association
list (a Python dict with string keys). -/
abbrev Doc := List (String × Value)

/-- Field lookup in a document (`d[k]` / `d.get(k)`). -/
def getV (d : Doc) (k : String) : Option Value :=
  (d.find? (fun kv => kv.1 == k)).map (·.2)

/-- Optional string serialised to a document value (`None` → null). -/
def optValue : Option String → Value
  | none => Value.vNone
  | some s => Value.vStr s

/-- Python truthiness of an optional string: `None` and `""` are falsy.
Used for `if sector:` in `list_solutions` and the `os.getenv` checks. -/
def pyTruthy : Option String → Bool
  | none => false
  | some s => !(s == "")

/-- `{k: v for k, v in d.items() if k != "_id"}` in the read handlers. -/
def stripId (d : Doc) : Doc := d.filter (fun kv => kv.1 != "_id")

/-! ## Schemas (`src/schemas.py`)

`EmailStr` is modelled as `String`: the email-format check lives in the
pydantic library, an external collaborator, and no claim depends on it. -/

/-- Schema `EnergyProduct` (collection "energyproduct"). -/
structure EnergyProduct where
  name : String
  sector : String
  summary : String
  specs : Option (List String) := none
  image : Option String := none
  featured : Bool := false
deriving Repr, DecidableEq

/-- Schema `ImpactStory` (collection "impactstory"). -/
structure ImpactStory where
  title : String
  location : Option String := none
  sector : Option String := none
  summary : String
  media_url : Option String := none
  partner : Option String := none
deriving Repr, DecidableEq

/-- Schema `Office` (collection "office"). -/
structure Office where
  region : String
  city : String
  address : Option String := none
  phone : Option String := none
  email : Option String := none
deriving Repr, DecidableEq

/-- Schema `Inquiry` (collection "inquiry"). -/
structure Inquiry where
  name : String
  email : String
  company : Option String := none
  topic : String
  message : String
  consent : Bool := false
deriving Repr, DecidableEq

/-- Response model of POST /api/inquiry. -/
structure InquiryResponse where
  ok : Bool
  message : String
deriving Repr, DecidableEq

/-! ## Pydantic model construction from a document

`Model(**doc)` validates each declared field of the dict; extra keys are
ignored, a missing optional field takes its default, and a type mismatch
raises a `ValidationError` (modelled as `Except.error`). -/

/-- Required string field of a pydantic model built from a dict. -/
def reqStr (d : Doc) (k : String) : Except String String :=
  match getV d k with
  | some (Value.vStr s) => Except.ok s
  | _ => Except.error ("validation error: field " ++ k)

/-- Optional string field (absent or null yields `none`). -/
def optStr (d : Doc) (k : String) : Except String (Option String) :=
  match getV d k with
  | some (Value.vStr s) => Except.ok (some s)
  | some Value.vNone => Except.ok none
  | none => Except.ok none
  | _ => Except.error ("validation error: field " ++ k)

/-- Optional list-of-strings field (absent or null yields `none`). -/
def optStrList (d : Doc) (k : String) : Except String (Option (List String)) :=
  match getV d k with
  | some (Value.vList l) => Except.ok (some l)
  | some Value.vNone => Except.ok none
  | none => Except.ok none
  | _ => Except.error ("validation error: field " ++ k)

/-- Boolean field with a default (absent yields the default). -/
def boolWithDefault (d : Doc) (k : String) (dflt : Bool) : Except String Bool :=
  match getV d k with
  | some (Value.vBool b) => Except.ok b
  | none => Except.ok dflt
  | _ => Except.error ("validation error: field " ++ k)

/-- `EnergyProduct(**d)`. -/
def EnergyProduct.fromDoc (d : Doc) : Except String EnergyProduct :=
  match reqStr d "name", reqStr d "sector", reqStr d "summary",
        optStrList d "specs", optStr d "image", boolWithDefault d "featured" false with
  | Except.ok n, Except.ok sec, Except.ok sum, Except.ok sp, Except.ok im, Except.ok f =>
      Except.ok ⟨n, sec, sum, sp, im, f⟩
  | Except.error e, _, _, _, _, _ => Except.error e
  | _, Except.error e, _, _, _, _ => Except.error e
  | _, _, Except.error e, _, _, _ => Except.error e
  | _, _, _, Except.error e, _, _ => Except.error e
  | _, _, _, _, Except.error e, _ => Except.error e
  | _, _, _, _, _, Except.error e => Except.error e

/-- `ImpactStory(**d)`. -/
def ImpactStory.fromDoc (d : Doc) : Except String ImpactStory :=
  match reqStr d "title", optStr d "location", optStr d "sector",
        reqStr d "summary", optStr d "media_url", optStr d "partner" with
  | Except.ok t, Except.ok loc, Except.ok sec, Except.ok sum, Except.ok m, Except.ok p =>
      Except.ok ⟨t, loc, sec, sum, m, p⟩
  | Except.error e, _, _, _, _, _ => Except.error e
  | _, Except.error e, _, _, _, _ => Except.error e
  | _, _, Except.error e, _, _, _ => Except.error e
  | _, _, _, Except.error e, _, _ => Except.error e
  | _, _, _, _, Except.error e, _ => Except.error e
  | _, _, _, _, _, Except.error e => Except.error e

/-- `Office(**d)`. -/
def Office.fromDoc (d : Doc) : Except String Office :=
  match reqStr d "region", reqStr d "city", optStr d "address",
        optStr d "phone", optStr d "email" with
  | Except.ok r, Except.ok c, Except.ok a, Except.ok p, Except.ok e =>
      Except.ok ⟨r, c, a, p, e⟩
  | Except.error e, _, _, _, _ => Except.error e
  | _, Except.error e, _, _, _ => Except.error e
  | _, _, Except.error e, _, _ => Except.error e
  | _, _, _, Except.error e, _ => Except.error e
  | _, _, _, _, Except.error e => Except.error e

/-- List comprehension `[Model(**stripId d) for d in docs]`: the first
validation error aborts the whole comprehension. -/
def mapDocs (f : Doc → Except String α) : List Doc → Except String (List α)
  | [] => Except.ok []
  | d :: ds =>
    match f d with
    | Except.error e => Except.error e
    | Except.ok a =>
      match mapDocs f ds with
      | Except.error e => Except.error e
      | Except.ok as => Except.ok (a :: as)

/-! ## Document store adapter -/

/-- Modelled from the spec: the Document Store Adapter (`database.py` is not
among the sources).  `get_documents(collection, filter, limit)` returns an
ordered sequence of documents or raises on an underlying error;
`create_document(collection, record)` returns the stored record or raises on
I/O failure.  An `Except.error` models a raised exception reaching the
caller in `main.py`. -/
structure Store where
  get_documents : String → Doc → Option Nat → Except String (List Doc)
  create_document : String → Doc → Except String Doc

/-- Modelled from the spec: pydantic serialisation of an `Inquiry` record as
passed to `create_document` — the record's own field values, unchanged. -/
def Inquiry.toDoc (q : Inquiry) : Doc :=
  [ ("name", Value.vStr q.name)
  , ("email", Value.vStr q.email)
  , ("company", optValue q.company)
  , ("topic", Value.vStr q.topic)
  , ("message", Value.vStr q.message)
  , ("consent", Value.vBool q.consent) ]

/-- Modelled from the spec (§4.1): `get_documents` over a concrete store
state returns the collection's documents that match the equality filter on
every provided field, in store order, truncated to `limit` when given. -/
def spec_get_documents (st : String → List Doc) (c : String) (filt : Doc)
    (lim : Option Nat) : List Doc :=
  let ms := (st c).filter (fun d => filt.all (fun kv => getV d kv.1 == some kv.2))
  match lim with
  | none => ms
  | some n => ms.take n

/-- Modelled from the spec: a healthy store over a concrete state; reads
follow `spec_get_documents` and writes succeed. -/
def specStore (st : String → List Doc) : Store :=
  { get_documents := fun c f l => Except.ok (spec_get_documents st c f l)
  , create_document := fun _ d => Except.ok d }

/-- Modelled from the spec: applying the write attempts recorded by a
handler to a store state — each written record is appended, unchanged, to
its collection. -/
def applyWrites (st : String → List Doc) (ws : List (String × Doc)) :
    String → List Doc :=
  ws.foldl (fun s w => fun c => if c == w.1 then s c ++ [w.2] else s c) st

/-! ## HTTP API layer (`src/main.py`) -/

/-- Outcome of a handler call: a 200 response with a body, an
`HTTPException` raised deliberately, or an uncaught exception propagating
out of the handler. -/
inductive HttpResult (α : Type) where
  | ok : α → HttpResult α
  | httpError : Nat → String → HttpResult α
  | exn : String → HttpResult α
deriving Repr, DecidableEq

/-- GET / (`root`).  The handler reads nothing, in particular not the
store handle; the parameter records that independence. -/
def root (_db : Option Store) : List (String × String) :=
  [("status", "ok"), ("service", "clean-energy-backend")]

/-- Diagnostic response shape of GET /test. -/
structure TestResponse where
  backend : String
  database : String
  database_url : String
  database_name : String
  connection_status : String
  collections : List String
deriving Repr, DecidableEq

/-- Observable behaviour of the raw store handle as used by GET /test:
`getattr(db, 'name', ...)` and `db.list_collection_names()` (which may
raise). -/
structure DbHandle where
  name : Option String
  list_collection_names : Except String (List String)

/-- GET /test (`test_database`). -/
def test_database (db : Option DbHandle) (url dbname : Option String) :
    TestResponse :=
  let r0 : TestResponse :=
    ⟨"✅ Running", "❌ Not Available", "❌ Not Set", "❌ Not Set",
      "Not Connected", []⟩
  let r1 :=
    match db with
    | some h =>
      let r := { r0 with database_url := "✅ Set",
                         database_name := h.name.getD "✅ Connected",
                         connection_status := "Connected" }
      match h.list_collection_names with
      | Except.ok cols =>
          { r with collections := cols.take 10,
                   database := "✅ Connected & Working" }
      | Except.error e =>
          { r with database := "⚠️ Connected but Error: " ++ e.take 80 }
    | none => { r0 with database := "❌ Database not initialized" }
  { r1 with database_url := if pyTruthy url then "✅ Set" else "❌ Not Set",
            database_name := if pyTruthy dbname then "✅ Set" else "❌ Not Set" }

/-- Static defaults returned by GET /api/solutions when `db is None`. -/
def solutions_defaults : List EnergyProduct :=
  [ ⟨"Solar Inverters", "solar",
      "High-efficiency PV inverters for utility and C&I.",
      some ["98.6% max efficiency", "Grid support"], none, true⟩
  , ⟨"Wind Drive Systems", "wind",
      "Reliable drivetrain and control systems for wind turbines.",
      some ["Low maintenance", "High uptime"], none, true⟩
  , ⟨"Battery Energy Storage", "storage",
      "Modular, safe, and scalable storage systems.",
      some ["LFP chemistry", "Liquid cooling"], none, true⟩ ]

/-- Filter dict built by `list_solutions`: `sector` is added only when
truthy (non-`None` and non-empty), `featured` whenever it is not `None`. -/
def solutionsFilter (sector : Option String) (featured : Option Bool) : Doc :=
  (if pyTruthy sector then [("sector", Value.vStr (sector.getD ""))] else [])
  ++ (match featured with
      | some b => [("featured", Value.vBool b)]
      | none => [])

/-- GET /api/solutions (`list_solutions`). -/
def list_solutions (db : Option Store) (sector : Option String)
    (featured : Option Bool) : Except String (List EnergyProduct) :=
  match db with
  | none => Except.ok solutions_defaults
  | some store =>
    match store.get_documents "energyproduct" (solutionsFilter sector featured) none with
    | Except.error e => Except.error e
    | Except.ok docs => mapDocs (fun d => EnergyProduct.fromDoc (stripId d)) docs

/-- Static defaults returned by GET /api/stories when `db is None`. -/
def stories_defaults : List ImpactStory :=
  [ ⟨"200 MW Solar + Storage in MENA", some "UAE", some "solar",
      "Hybrid system powering 150k homes while avoiding 300k tons CO2 annually.",
      none, some "Masdar"⟩
  , ⟨"Offshore Wind Integration", some "North Sea", some "wind",
      "Advanced grid-forming inverters stabilize offshore wind farms.",
      none, some ""⟩ ]

/-- GET /api/stories (`list_stories`), `limit` defaulting to 6 at the HTTP
layer. -/
def list_stories (db : Option Store) (limit : Nat) :
    Except String (List ImpactStory) :=
  match db with
  | none => Except.ok stories_defaults
  | some store =>
    match store.get_documents "impactstory" [] (some limit) with
    | Except.error e => Except.error e
    | Except.ok docs => mapDocs (fun d => ImpactStory.fromDoc (stripId d)) docs

/-- Static defaults returned by GET /api/offices when `db is None`. -/
def offices_defaults : List Office :=
  [ ⟨"North America", "San Francisco", none, none, some "na@cleantech.example"⟩
  , ⟨"EMEA", "Munich", none, none, some "emea@cleantech.example"⟩
  , ⟨"APAC", "Singapore", none, none, some "apac@cleantech.example"⟩ ]

/-- GET /api/offices (`list_offices`). -/
def list_offices (db : Option Store) : Except String (List Office) :=
  match db with
  | none => Except.ok offices_defaults
  | some store =>
    match store.get_documents "office" [] none with
    | Except.error e => Except.error e
    | Except.ok docs => mapDocs (fun d => Office.fromDoc (stripId d)) docs

/-- POST /api/inquiry (`submit_inquiry`).  Besides the HTTP outcome, the
second component records every `create_document` call attempted, so that
"no store write attempted" is a statement about the function. -/
def submit_inquiry (db : Option Store) (p : Inquiry) :
    HttpResult InquiryResponse × List (String × Doc) :=
  if p.consent then
    match db with
    | none =>
        (HttpResult.ok ⟨true, "Thank you. Our team will contact you shortly."⟩, [])
    | some store =>
      match store.create_document "inquiry" p.toDoc with
      | Except.error e =>
          (HttpResult.ok ⟨false, "Received but DB error: " ++ e.take 80⟩,
            [("inquiry", p.toDoc)])
      | Except.ok _ =>
          (HttpResult.ok ⟨true, "Thank you. Our team will contact you shortly."⟩,
            [("inquiry", p.toDoc)])
  else
    (HttpResult.httpError 400 "Consent required for storing contact info.", [])

/-! ## Helper lemmas and concrete fixtures -/

/-- A store whose every call raises (models a failing database client). -/
def errStore : Store :=
  { get_documents := fun _ _ _ => Except.error "boom"
  , create_document := fun _ _ => Except.error "boom" }

/-- A healthy store over the empty state: reads return nothing, writes
succeed. -/
def emptyStore : Store := specStore (fun _ => [])

/-- A concrete valid inquiry payload with `consent = true`. -/
def payYes : Inquiry :=
  ⟨"Ada Lovelace", "ada@example.com", none, "General Inquiry", "Hello", true⟩

/-- The same payload with `consent = false`. -/
def payNo : Inquiry :=
  ⟨"Ada Lovelace", "ada@example.com", none, "General Inquiry", "Hello", false⟩

/-- `mapDocs` succeeds on a prefix whenever it succeeds on the whole list,
returning the corresponding prefix of the results. -/
theorem mapDocs_take (f : Doc → Except String α) :
    ∀ (l : List Doc) (rs : List α), mapDocs f l = Except.ok rs →
      ∀ n, mapDocs f (l.take n) = Except.ok (rs.take n) := by
  intro l
  induction l with
  | nil =>
    intro rs h n
    simp [mapDocs] at h
    subst h
    simp [mapDocs]
  | cons d ds ih =>
    intro rs h n
    rw [mapDocs] at h
    cases hf : f d with
    | error e => rw [hf] at h; exact absurd h (by simp)
    | ok a =>
      rw [hf] at h
      cases hm : mapDocs f ds with
      | error e => rw [hm] at h; exact absurd h (by simp)
      | ok as =>
        rw [hm] at h
        cases h
        cases n with
        | zero => simp [mapDocs]
        | succ m =>
          simp only [List.take_succ_cons]
          rw [mapDocs, hf, ih as hm m]

/-- `mapDocs` preserves list length on success. -/
theorem mapDocs_length (f : Doc → Except String α) :
    ∀ (l : List Doc) (rs : List α), mapDocs f l = Except.ok rs →
      rs.length = l.length := by
  intro l
  induction l with
  | nil => intro rs h; simp [mapDocs] at h; subst h; rfl
  | cons d ds ih =>
    intro rs h
    rw [mapDocs] at h
    cases hf : f d with
    | error e => rw [hf] at h; exact absurd h (by simp)
    | ok a =>
      rw [hf] at h
      cases hm : mapDocs f ds with
      | error e => rw [hm] at h; exact absurd h (by simp)
      | ok as => rw [hm] at h; cases h; simp [ih as hm]

/-! ## Claims -/

/-- C1: POST /api/inquiry with `consent = false` returns HTTP 400 and
attempts no store write; consequently a write is attempted only when the
payload's consent field is true. -/
theorem consent_false_rejected_no_write :
    (∀ (db : Option Store) (p : Inquiry), p.consent = false →
      submit_inquiry db p =
        (HttpResult.httpError 400 "Consent required for storing contact info.", [])) ∧
    (∀ (db : Option Store) (p : Inquiry),
      (submit_inquiry db p).2 ≠ [] → p.consent = true) := by
  constructor
  · intro db p h
    simp [submit_inquiry, h]
  · intro db p h
    by_cases hc : p.consent = true
    · exact hc
    · rw [Bool.not_eq_true] at hc
      simp [submit_inquiry, hc] at h

/-- Witness for C1 at a concrete consent-false payload. -/
theorem consent_false_rejected_no_write_witness :
    submit_inquiry none payNo =
      (HttpResult.httpError 400 "Consent required for storing contact info.", []) :=
  consent_false_rejected_no_write.1 none payNo rfl

/-- C2: with `consent = true` and the store available, the handler always
answers 200: `{ok := true}` when the write succeeds, `{ok := false}` with a
truncated message when `create_document` raises — the exception never
propagates. -/
theorem inquiry_write_outcomes (store : Store) (p : Inquiry)
    (h : p.consent = true) :
    (∃ r, (submit_inquiry (some store) p).1 = HttpResult.ok r) ∧
    (∀ d, store.create_document "inquiry" p.toDoc = Except.ok d →
      (submit_inquiry (some store) p).1 =
        HttpResult.ok ⟨true, "Thank you. Our team will contact you shortly."⟩) ∧
    (∀ e, store.create_document "inquiry" p.toDoc = Except.error e →
      (submit_inquiry (some store) p).1 =
        HttpResult.ok ⟨false, "Received but DB error: " ++ e.take 80⟩) := by
  refine ⟨?_, ?_, ?_⟩
  · cases hc : store.create_document "inquiry" p.toDoc <;>
      simp [submit_inquiry, h, hc]
  · intro d hc
    simp [submit_inquiry, h, hc]
  · intro e hc
    simp [submit_inquiry, h, hc]

/-- Witness for C2: both write outcomes at concrete stores. -/
theorem inquiry_write_outcomes_witness :
    (submit_inquiry (some emptyStore) payYes).1 =
      HttpResult.ok ⟨true, "Thank you. Our team will contact you shortly."⟩ ∧
    (submit_inquiry (some errStore) payYes).1 =
      HttpResult.ok ⟨false, "Received but DB error: " ++ "boom".take 80⟩ :=
  ⟨(inquiry_write_outcomes emptyStore payYes rfl).2.1 payYes.toDoc rfl,
   (inquiry_write_outcomes errStore payYes rfl).2.2 "boom" rfl⟩

/-- C3: with the store handle null, GET /api/solutions returns the same
fixed list of 3 default records for every sector/featured combination. -/
theorem solutions_defaults_ignore_filters :
    (∀ (sector : Option String) (featured : Option Bool),
      list_solutions none sector featured = Except.ok solutions_defaults) ∧
    solutions_defaults.length = 3 :=
  ⟨fun _ _ => rfl, rfl⟩

/-- C6: GET / returns exactly
`{"status": "ok", "service": "clean-energy-backend"}` whatever the store
state. -/
theorem root_constant (db : Option Store) :
    root db = [("status", "ok"), ("service", "clean-energy-backend")] := rfl

/-- C9: with the store handle null, a consent-true submission is
acknowledged with `{ok := true}` and the thank-you message although no
write is attempted. -/
theorem inquiry_silently_dropped_without_store (p : Inquiry)
    (h : p.consent = true) :
    submit_inquiry none p =
      (HttpResult.ok ⟨true, "Thank you. Our team will contact you shortly."⟩, []) := by
  simp [submit_inquiry, h]

/-- Witness for C9 at a concrete consent-true payload. -/
theorem inquiry_silently_dropped_without_store_witness :
    submit_inquiry none payYes =
      (HttpResult.ok ⟨true, "Thank you. Our team will contact you shortly."⟩, []) :=
  inquiry_silently_dropped_without_store payYes rfl

/-- C10: `list_solutions` treats an empty-string `sector` exactly like an
absent one (the filter carries no sector entry, so the same query is
issued), whereas any provided `featured` value — including `false` — is
always put in the equality filter; a non-empty sector is filtered on. -/
theorem empty_sector_ignored_featured_false_filtered :
    (∀ (store : Store) (featured : Option Bool),
      list_solutions (some store) (some "") featured =
        list_solutions (some store) none featured) ∧
    (∀ (featured : Option Bool),
      solutionsFilter (some "") featured = solutionsFilter none featured) ∧
    (∀ (sector : Option String) (b : Bool),
      ("featured", Value.vBool b) ∈ solutionsFilter sector (some b)) ∧
    (∀ (s : String) (featured : Option Bool), s ≠ "" →
      ("sector", Value.vStr s) ∈ solutionsFilter (some s) featured) := by
  refine ⟨?_, ?_, ?_, ?_⟩
  · intro store featured
    simp [list_solutions, solutionsFilter, pyTruthy]
  · intro featured
    simp [solutionsFilter, pyTruthy]
  · intro sector b
    cases sector <;> simp [solutionsFilter, pyTruthy]
  · intro s featured h
    simp [solutionsFilter, pyTruthy, h]

/-- Witness for C10 at a concrete non-empty sector. -/
theorem empty_sector_ignored_featured_false_filtered_witness :
    ("sector", Value.vStr "solar") ∈ solutionsFilter (some "solar") (some false) :=
  empty_sector_ignored_featured_false_filtered.2.2.2 "solar" (some false) (by decide)

/-- C7: GET /test is a total function of the handle and environment: the
backend marker is constant, the env flags depend only on the respective
variable's truthiness, the database field is independent of the env
variables, a raised `list_collection_names` error is rendered truncated to
80 characters, and at most 10 collection names are reported. -/
theorem test_database_reports_independently (db : Option DbHandle)
    (url dbname : Option String) :
    (test_database db url dbname).backend = "✅ Running" ∧
    (test_database db url dbname).database_url =
      (if pyTruthy url then "✅ Set" else "❌ Not Set") ∧
    (test_database db url dbname).database_name =
      (if pyTruthy dbname then "✅ Set" else "❌ Not Set") ∧
    (∀ url' dbname', (test_database db url' dbname').database =
      (test_database db url dbname).database) ∧
    (∀ h e, db = some h → h.list_collection_names = Except.error e →
      (test_database db url dbname).database =
        "⚠️ Connected but Error: " ++ e.take 80) ∧
    (test_database db url dbname).collections.length ≤ 10 := by
  refine ⟨?_, ?_, ?_, ?_, ?_, ?_⟩
  · cases db with
    | none => rfl
    | some h => cases hl : h.list_collection_names <;> simp [test_database, hl]
  · cases db with
    | none => rfl
    | some h => cases hl : h.list_collection_names <;> simp [test_database, hl]
  · cases db with
    | none => rfl
    | some h => cases hl : h.list_collection_names <;> simp [test_database, hl]
  · intro url' dbname'
    cases db with
    | none => rfl
    | some h => cases hl : h.list_collection_names <;> simp [test_database, hl]
  · intro h e hdb hl
    subst hdb
    simp [test_database, hl]
  · cases db with
    | none => simp [test_database]
    | some h =>
      cases hl : h.list_collection_names with
      | ok cols =>
        simp [test_database, hl, List.length_take]
      | error e => simp [test_database, hl]

/-- Witness for C7 at a concrete erroring handle. -/
theorem test_database_reports_independently_witness :
    (test_database (some ⟨some "mydb", Except.error "kaput"⟩) none
        (some "x")).database = "⚠️ Connected but Error: " ++ "kaput".take 80 :=
  (test_database_reports_independently (some ⟨some "mydb", Except.error "kaput"⟩)
      none (some "x")).2.2.2.2.1 ⟨some "mydb", Except.error "kaput"⟩ "kaput" rfl rfl

/-- C4 counterexample: against a store whose queries raise, all three read
handlers propagate the exception instead of catching it and returning
default data — none of them contains a try/except around `get_documents`. -/
theorem read_endpoints_propagate_store_error :
    list_solutions (some errStore) none none = Except.error "boom" ∧
    list_stories (some errStore) 6 = Except.error "boom" ∧
    list_offices (some errStore) = Except.error "boom" :=
  ⟨rfl, rfl, rfl⟩

/-- C4 amended: default data is served only when the store handle is null;
when the store is available and `get_documents` raises, each read handler
lets the exception propagate unchanged. -/
theorem read_endpoints_error_behaviour (store : Store) (e : String) :
    (∀ s f, store.get_documents "energyproduct" (solutionsFilter s f) none =
        Except.error e → list_solutions (some store) s f = Except.error e) ∧
    (∀ n, store.get_documents "impactstory" [] (some n) = Except.error e →
      list_stories (some store) n = Except.error e) ∧
    (store.get_documents "office" [] none = Except.error e →
      list_offices (some store) = Except.error e) ∧
    (list_solutions none none none = Except.ok solutions_defaults ∧
     list_stories none 6 = Except.ok stories_defaults ∧
     list_offices none = Except.ok offices_defaults) := by
  refine ⟨?_, ?_, ?_, rfl, rfl, rfl⟩
  · intro s f h
    simp [list_solutions, h]
  · intro n h
    simp [list_stories, h]
  · intro h
    simp [list_offices, h]

/-- Witness for the amended C4 at the concrete raising store. -/
theorem read_endpoints_error_behaviour_witness :
    list_offices (some errStore) = Except.error "boom" :=
  (read_endpoints_error_behaviour errStore "boom").2.2.1 rfl

/-- C5: with the store available, querying "impactstory" with `limit = 2`
over a collection of 5 convertible documents yields exactly the first 2
records in store order. -/
theorem stories_limit_respects_order (st : String → List Doc)
    (rs : List ImpactStory)
    (h5 : (st "impactstory").length = 5)
    (hconv : mapDocs (fun d => ImpactStory.fromDoc (stripId d))
        (st "impactstory") = Except.ok rs) :
    list_stories (some (specStore st)) 2 = Except.ok (rs.take 2) ∧
    (rs.take 2).length = 2 := by
  constructor
  · have hq : spec_get_documents st "impactstory" [] (some 2) =
        (st "impactstory").take 2 := by
      simp [spec_get_documents]
    simp [list_stories, specStore, hq, mapDocs_take _ _ _ hconv 2]
  · have hlen := mapDocs_length _ _ _ hconv
    simp [List.length_take, hlen, h5]

/-- A minimal valid "impactstory" document. -/
def storyDoc (t : String) : Doc :=
  [("title", Value.vStr t), ("summary", Value.vStr "s")]

/-- A concrete store state with 5 documents in the "impactstory"
collection. -/
def st5 : String → List Doc := fun c =>
  if c == "impactstory" then
    [storyDoc "a", storyDoc "b", storyDoc "c", storyDoc "d", storyDoc "e"]
  else []

/-- Witness for C5 at the concrete 5-document store. -/
theorem stories_limit_respects_order_witness :
    list_stories (some (specStore st5)) 2 =
      Except.ok (([⟨"a", none, none, "s", none, none⟩,
                   ⟨"b", none, none, "s", none, none⟩,
                   ⟨"c", none, none, "s", none, none⟩,
                   ⟨"d", none, none, "s", none, none⟩,
                   ⟨"e", none, none, "s", none, none⟩] : List ImpactStory).take 2) :=
  (stories_limit_respects_order st5 _ rfl rfl).1

/-- C8: a consent-true submission against a healthy store is acknowledged
`{ok := true}`, the record appended to the "inquiry" collection is exactly
the serialised payload, a direct read of that collection returns it, and
each of its six fields carries the submitted value unchanged. -/
theorem inquiry_roundtrip (st : String → List Doc) (p : Inquiry)
    (h : p.consent = true) :
    (submit_inquiry (some (specStore st)) p).1 =
      HttpResult.ok ⟨true, "Thank you. Our team will contact you shortly."⟩ ∧
    applyWrites st (submit_inquiry (some (specStore st)) p).2 "inquiry" =
      st "inquiry" ++ [p.toDoc] ∧
    p.toDoc ∈ spec_get_documents
        (applyWrites st (submit_inquiry (some (specStore st)) p).2)
        "inquiry" [] none ∧
    getV p.toDoc "name" = some (Value.vStr p.name) ∧
    getV p.toDoc "email" = some (Value.vStr p.email) ∧
    getV p.toDoc "company" = some (optValue p.company) ∧
    getV p.toDoc "topic" = some (Value.vStr p.topic) ∧
    getV p.toDoc "message" = some (Value.vStr p.message) ∧
    getV p.toDoc "consent" = some (Value.vBool p.consent) := by
  have hw : submit_inquiry (some (specStore st)) p =
      (HttpResult.ok ⟨true, "Thank you. Our team will contact you shortly."⟩,
        [("inquiry", p.toDoc)]) := by
    simp [submit_inquiry, h, specStore]
  refine ⟨by rw [hw], ?_, ?_, rfl, rfl, rfl, rfl, rfl, rfl⟩
  · rw [hw]
    simp [applyWrites]
  · rw [hw]
    simp [spec_get_documents, applyWrites]

/-- Witness for C8 at the concrete payload over the empty store state. -/
theorem inquiry_roundtrip_witness :
    (submit_inquiry (some (specStore (fun _ => []))) payYes).1 =
      HttpResult.ok ⟨true, "Thank you. Our team will contact you shortly."⟩ ∧
    getV payYes.toDoc "email" = some (Value.vStr "ada@example.com") :=
  ⟨(inquiry_roundtrip (fun _ => []) payYes rfl).1,
   (inquiry_roundtrip (fun _ => []) payYes rfl).2.2.2.2.1⟩
